import Mathlib

/-!
# Verification of the satellite tracking core (aa2il/satellites)

A shallow embedding of the frequency-and-rotor tracking control loop of
`satellites.py`, together with theorems checking its specification.

Modelling conventions:
* Python floats are embedded as rationals (`ℚ`); the file's arithmetic
  (`0.5*(a+b)`, `1e-8*dop100*f`, …) is exact in every case the program
  exercises, so `ℚ` is a faithful carrier.
* Python `int(x)` (truncation toward zero) is `py_int`.
* Python `str.upper()` on the ASCII transponder names is `py_upper`
  (character-wise upper-casing).
* The substring test `a in b` is `str_has b a`, and Python's truthiness
  test `if not self.main` on an optional string is `py_falsy`.
-/

namespace Satellites

/-- Python `int()` applied to a rational: truncation toward zero. -/
def py_int (q : ℚ) : ℤ := if 0 ≤ q then ⌊q⌋ else ⌈q⌉

/-- Character-wise upper-casing, modelling Python `str.upper()` on the
ASCII names appearing in the transponder files. -/
def py_upper (s : String) : String := ⟨s.data.map Char.toUpper⟩

/-- `ch_starts n h` is true when the char list `h` starts with `n`. -/
def ch_starts : List Char → List Char → Bool
  | [], _ => true
  | _ :: _, [] => false
  | a :: as, b :: bs => a == b && ch_starts as bs

/-- `ch_contains n h` is true when `n` occurs contiguously in `h`. -/
def ch_contains (needle : List Char) : List Char → Bool
  | [] => needle.isEmpty
  | b :: bs => ch_starts needle (b :: bs) || ch_contains needle bs

/-- Python's `needle in hay` on strings. -/
def str_has (hay needle : String) : Bool := ch_contains needle.data hay.data

/-- Python truthiness of `self.main` (an optional string): `None` and the
empty string are falsy. -/
def py_falsy : Option String → Bool
  | none => true
  | some s => s == ""

/-! ## Transponder model (`SATELLITE.get_transponders`, lines 454–483)

One section of a Gpredict `.trsp` file: `down_low` is always read
(`items['fdn1']=int(items['down_low'])`), the remaining keys are optional.
The frequencies (Hz) are integers in the file. -/

structure TrspFile where
  down_low : ℤ
  down_high : Option ℤ
  up_low : Option ℤ
  up_high : Option ℤ
  invert : Option String

/-- The fields `get_transponders` stores for one transponder. -/
structure Transp where
  fdn1 : ℤ
  fdn2 : ℤ
  fup1 : ℤ
  fup2 : ℤ
  Inverting : Bool

/-- The field-normalisation part of `get_transponders`: defaulting of the
optional file keys, the `invert == 'true'` test, and the (dead)
`if items['Inverting'] and False` swap of `fup1`/`fup2`. -/
def parse_transponder (f : TrspFile) : Transp :=
  let fdn1 := f.down_low
  let fdn2 := match f.down_high with
    | some v => v
    | none => fdn1
  let fup1 := match f.up_low with
    | some v => v
    | none => 0
  let fup2 := match f.up_high with
    | some v => v
    | none => fup1
  let inv := match f.invert with
    | some s => s == "true"
    | none => false
  if inv && false then
    ⟨fdn1, fdn2, fup2, fup1, inv⟩
  else
    ⟨fdn1, fdn2, fup1, fup2, inv⟩

/-! ## Main-transponder selection (`get_transponders`, lines 484–502) -/

def kPE0SAT : String := "PE0SAT"

def kLV : String := "L/V"

def kFMVOICE : String := "FM VOICE"

def kUVBLIN : String := "MODE U/V (B) LIN"

def kUVLINEAR : String := "MODE U/V LINEAR"

def kVUFM : String := "MODE V/U FM"

def kTRANSPONDER : String := "TRANSPONDER"

def kTRANSPODER : String := "TRANSPODER"

/-- The exclusion test on the upper-cased section name:
`('PE0SAT' in transp2) or ('L/V' in transp2)`. -/
def excluded_name (t2 : String) : Bool := str_has t2 kPE0SAT || str_has t2 kLV

/-- The main-transponder name test on the upper-cased section name. -/
def main_name (t2 : String) : Bool :=
  str_has t2 kFMVOICE || t2 == kUVBLIN || t2 == kUVLINEAR || t2 == kVUFM ||
    str_has t2 kTRANSPONDER || str_has t2 kTRANSPODER

/-- One iteration of the `for transp in config.sections()` loop, restricted
to its effect on `self.main`. -/
def main_step (main : Option String) (transp : String) : Option String :=
  let t2 := py_upper transp
  if excluded_name t2 then main
  else if main_name t2 then
    (if py_falsy main then some transp else main)
  else main

/-- `self.main` after the whole loop (it starts as `None`). -/
def select_main (sections : List String) : Option String :=
  sections.foldl main_step none

/-- The selection criterion as the specification words it: not excluded,
and the upper-cased name matches one of the markers. -/
def main_criteria (transp : String) : Bool :=
  !excluded_name (py_upper transp) && main_name (py_upper transp)

/-! ## Doppler shifts (`SATELLITE.Doppler_Shifts`, lines 509–528)

`obs['doppler']` is the shift for a 100 MHz carrier; the routine returns
`fdop1 = 1e-8*dop100*fdown` and `fdop2 = -1e-8*dop100*fup`. -/

def Doppler_Shifts (dop100 fdown fup : ℚ) : ℚ × ℚ :=
  (1 / 10 ^ 8 * dop100 * fdown, -(1 / 10 ^ 8) * dop100 * fup)

/-! ## Frequency tracking (`RigControl.track_freqs`, lines 1328–1360) -/

/-- The uplink frequency paired with the downlink dial `fdown`:
`df = fdown - fdn1`, then `fup2 - df` for an inverting transponder and
`fup1 + df` otherwise. -/
def fup_of (t : Transp) (fdown : ℚ) : ℚ :=
  let df := fdown - (t.fdn1 : ℚ)
  if t.Inverting then (t.fup2 : ℚ) - df else (t.fup1 : ℚ) + df

/-- The per-tick outputs of `track_freqs` that concern frequencies. -/
structure TrackOut where
  df : ℚ
  fup : ℚ
  fdop1 : ℚ
  fdop2 : ℚ
  frqB : ℤ
  frqA : ℤ

/-- The frequency computation of `track_freqs`: the uplink map, the two
Doppler shifts, and the commanded VFO values
`frqB = int(fup+fdop2+xit)` and `frqA = int(fdown+fdop1+rit)`.
(`frqB` is computed in the two-VFO configurations.) -/
def track_freqs (t : Transp) (fdown dop100 : ℚ) (rit xit : ℤ) : TrackOut :=
  let fup := fup_of t fdown
  let fd := Doppler_Shifts dop100 fdown fup
  let frqB := py_int (fup + fd.2 + (xit : ℚ))
  let frqA := py_int (fdown + fd.1 + (rit : ℚ))
  ⟨fdown - (t.fdn1 : ℚ), fup, fd.1, fd.2, frqB, frqA⟩

/-! ## The per-tick update (`RigControl.Updater`, lines 1221–1304) -/

/-- The guard on the whole per-tick computation:
`if (gui.rig_engaged or self.fdown==None) and gui.Selected:`.
`fdown_is_none` is true before the first acquisition tick. -/
def updater_guard (rig_engaged fdown_is_none selected : Bool) : Bool :=
  (rig_engaged || fdown_is_none) && selected

/-- Whether `track_freqs` writes to the radio:
`if gui.rig_engaged or Force: P.sock.set_freq(...)`. -/
def rig_write (rig_engaged force : Bool) : Bool := rig_engaged || force

/-- The loop state the manual-retune reconciliation reads and writes:
`self.fdown`, `self.frqA` (last commanded downlink VFO value) and
`self.fdop1` (downlink Doppler shift of the last `track_freqs` call). -/
structure TickState where
  fdown : ℚ
  frqA : ℤ
  fdop1 : ℚ

/-- One post-acquisition tick of `Updater` (its `else` branch, taken when
the guard holds and no new satellite was selected): read the VFO (`frq`);
if it is positive and differs from the last commanded value, rebase
`fdown := frq - fdop1` and record `frqA := frq`; then run `track_freqs`,
which overwrites `frqA` and `fdop1`. -/
def updater_tick (t : Transp) (st : TickState) (frq : ℤ) (dop100 : ℚ)
    (rit xit : ℤ) : TickState :=
  let st1 := if 0 < frq ∧ frq ≠ st.frqA then
      TickState.mk ((frq : ℚ) - st.fdop1) frq st.fdop1
    else st
  let r := track_freqs t st1.fdown dop100 rit xit
  ⟨st1.fdown, r.frqA, r.fdop1⟩

/-! ## Rotor target and command (`track_freqs`, lines 1362–1396) -/

def ROTOR_THRESH : ℚ := 10

/-- The rotor target: the true `(az, el)` when the satellite is up,
otherwise the start of the stored sky track at zero elevation; then the
180°-flip mapping when the flip decision is set. -/
def new_rotor_pos (az el track_az0 : ℚ) (flip : Bool) : ℚ × ℚ :=
  let p := if el ≥ 0 then (az, el) else (track_az0, 0)
  if flip then
    if p.1 < 180 then (p.1 + 180, 180 - p.2) else (p.1 - 180, 180 - p.2)
  else p

/-- Whether a hardware rotor position command is issued
(`rotor_updated` in the source): only with an active rotor connection,
only when a pointing error exceeds `ROTOR_THRESH`, and only when engaged
or forced. -/
def rotor_command (active : Bool) (pos target : ℚ × ℚ)
    (rig_engaged force : Bool) : Bool :=
  if active then
    if |pos.1 - target.1| > ROTOR_THRESH ∨ |pos.2 - target.2| > ROTOR_THRESH then
      if rig_engaged || force then true else false
    else false
  else false

/-! ## Flip decision (`plot_sky_track`, lines 272–306) -/

/-- Quadrant 2 of the azimuth circle: `track_az>90 and track_az<180`. -/
def quad2 (a : ℚ) : Bool := decide (90 < a ∧ a < 180)

/-- Quadrant 3 of the azimuth circle: `track_az>180 and track_az<270`. -/
def quad3 (a : ℚ) : Bool := decide (180 < a ∧ a < 270)

def THRESH : ℚ := 15

/-- One iteration of the `for i in range(len(az))` loop updating
`min2` and `max3`. -/
def track_step (p : ℚ × ℚ) (a : ℚ) : ℚ × ℚ :=
  if quad2 a then (min p.1 a, p.2)
  else if quad3 a then (p.1, max p.2 a)
  else p

/-- `(min2, max3)` after the loop, from `min2=360` and `max3=0`. -/
def track_minmax (az : List ℚ) : ℚ × ℚ := az.foldl track_step (360, 0)

/-- The flip decision of `plot_sky_track`: both quadrants visited, then
cancelled when `max3 < 180+THRESH or min2 > 180-THRESH`. -/
def flipper (az : List ℚ) : Bool :=
  let flip := az.any quad2 && az.any quad3
  if flip then
    if (track_minmax az).2 < 180 + THRESH ∨ (track_minmax az).1 > 180 - THRESH then
      false
    else flip
  else flip

/-- The minimum azimuth observed while in quadrant 2 (the specification's
`min_quadrant2_az`; 360 when the quadrant is never visited, as in the
source's initialisation). -/
def min_quad2 (az : List ℚ) : ℚ := (az.filter quad2).foldl min 360

/-- The maximum azimuth observed while in quadrant 3 (the specification's
`max_quadrant3_az`; 0 when the quadrant is never visited). -/
def max_quad3 (az : List ℚ) : ℚ := (az.filter quad3).foldl max 0

/-! ## Helper lemmas -/

theorem py_int_intCast (n : ℤ) : py_int (n : ℚ) = n := by
  unfold py_int
  split <;> simp

theorem track_freqs_frqA (t : Transp) (fdown dop100 : ℚ) (rit xit : ℤ) :
    (track_freqs t fdown dop100 rit xit).frqA =
      py_int (fdown + (Doppler_Shifts dop100 fdown (fup_of t fdown)).1 + (rit : ℚ)) := rfl

theorem track_freqs_frqB (t : Transp) (fdown dop100 : ℚ) (rit xit : ℤ) :
    (track_freqs t fdown dop100 rit xit).frqB =
      py_int (fup_of t fdown + (Doppler_Shifts dop100 fdown (fup_of t fdown)).2 + (xit : ℚ)) := rfl

theorem track_freqs_fdop1 (t : Transp) (fdown dop100 : ℚ) (rit xit : ℤ) :
    (track_freqs t fdown dop100 rit xit).fdop1 =
      (Doppler_Shifts dop100 fdown (fup_of t fdown)).1 := rfl

/-! ## Claim theorems -/

/-- Claim C3: the geometry routine `Doppler_Shifts` scales the 100 MHz
Doppler figure linearly: the downlink shift is `1e-8*dop100*fdown`, the
uplink shift is its negative counterpart `-1e-8*dop100*fup`, and doubling
the frequency doubles the shift. -/
theorem C3_doppler_shift_scaling : ∀ dop100 fdown fup f : ℚ,
    ((Doppler_Shifts dop100 fdown fup).1 = 1 / 10 ^ 8 * dop100 * fdown) ∧
    ((Doppler_Shifts dop100 fdown fup).2 = -(1 / 10 ^ 8 * dop100 * fup)) ∧
    ((Doppler_Shifts dop100 (2 * f) fup).1 = 2 * (Doppler_Shifts dop100 f fup).1) := by
  intro dop100 fdown fup f
  refine ⟨rfl, ?_, ?_⟩
  · show -(1 / 10 ^ 8) * dop100 * fup = -(1 / 10 ^ 8 * dop100 * fup)
    ring
  · show 1 / 10 ^ 8 * dop100 * (2 * f) = 2 * (1 / 10 ^ 8 * dop100 * f)
    ring

/-- Claim C2: with `df = fdown - fdn1` the computed uplink is
`fup2 - df` for an inverting transponder and `fup1 + df` otherwise; hence
for a non-inverting transponder the uplink offset from `fup1` equals the
downlink offset, and for an inverting transponder raising the reference
downlink by `d` lowers the uplink by exactly `d`. -/
theorem C2_uplink_mapping : ∀ (t : Transp) (fdown : ℚ),
    (fup_of t fdown = if t.Inverting then (t.fup2 : ℚ) - (fdown - (t.fdn1 : ℚ))
      else (t.fup1 : ℚ) + (fdown - (t.fdn1 : ℚ))) ∧
    (t.Inverting = false → fup_of t fdown - (t.fup1 : ℚ) = fdown - (t.fdn1 : ℚ)) ∧
    (t.Inverting = true → ∀ d : ℚ, fup_of t (fdown + d) = fup_of t fdown - d) := by
  intro t fdown
  refine ⟨rfl, ?_, ?_⟩
  · intro h
    simp [fup_of, h]
  · intro h d
    simp only [fup_of, h, if_true]
    ring

theorem C2_uplink_mapping_witness :
    fup_of ⟨145960000, 145990000, 435850000, 435880000, true⟩ (145970000 + 5000) =
      fup_of ⟨145960000, 145990000, 435850000, 435880000, true⟩ 145970000 - 5000 :=
  (C2_uplink_mapping ⟨145960000, 145990000, 435850000, 435880000, true⟩ 145970000).2.2 rfl 5000

/-- Claim C10: the stored transponder fields satisfy `fdn1 = down_low`,
`fdn2 = down_high` (defaulting to `fdn1`), `fup1 = up_low` (defaulting
to 0), `fup2 = up_high` (defaulting to `fup1`); `Inverting` holds exactly
when the file's `invert` field is the string `true`; and `fup1`/`fup2`
keep these values regardless of `Inverting` — the guarded swap
(`if items['Inverting'] and False`) is unreachable. -/
theorem C10_parse_transponder_fields : ∀ f : TrspFile,
    ((parse_transponder f).fdn1 = f.down_low) ∧
    ((parse_transponder f).fdn2 = f.down_high.getD f.down_low) ∧
    ((parse_transponder f).fup1 = f.up_low.getD 0) ∧
    ((parse_transponder f).fup2 = f.up_high.getD (f.up_low.getD 0)) ∧
    ((parse_transponder f).Inverting = true ↔ f.invert = some ("true")) := by
  intro f
  obtain ⟨dl, dh, ul, uh, inv⟩ := f
  cases dh <;> cases ul <;> cases uh <;> cases inv <;>
    simp [parse_transponder, Option.getD]

theorem C10_parse_transponder_fields_witness :
    (parse_transponder ⟨145962500, none, some 435250000, some 435280000, some ("true")⟩).Inverting
      = true :=
  ((C10_parse_transponder_fields
    ⟨145962500, none, some 435250000, some 435280000, some ("true")⟩).2.2.2.2).mpr rfl

/-- Claim C8 counterexample: with a satellite selected (`selected = true`),
tracking disengaged (`rig_engaged = false`) and the reference downlink
already initialised (`fdown_is_none = false`), the `Updater` guard is
false: the tick performs none of the per-tick computation (retune
reconciliation, `track_freqs`, rotor computation, log record), against the
claim that disengaging suppresses only the hardware writes. -/
theorem C8_cex_disengaged_tick : updater_guard false false true = false := rfl

/-- Claim C8 (amended): a tick runs the full per-tick computation exactly
when a satellite is selected and either tracking is engaged or the
reference downlink is still uninitialised (the acquisition tick); a
disengaged tick after acquisition skips it (only the AOS/LOS refresh
runs), and when the computation does run disengaged, the radio write in
`track_freqs` is suppressed unless forced. -/
theorem C8_updater_guard_policy : ∀ e f s : Bool,
    (updater_guard e f s = true ↔ ((e = true ∨ f = true) ∧ s = true)) ∧
    (s = true → e = false → f = false → updater_guard e f s = false) ∧
    (rig_write false false = false) := by decide

/-- Claim C7 counterexample: a forced update (`Force = true`, rotor active,
engaged) with pointing errors `Δaz = 5`, `Δel = 3` issues no rotor
command — the code's `Force` flag bypasses only the engaged gate, not the
10° threshold, against the claim that a command is issued "when the caller
forces an update". -/
theorem C7_cex_forced_small_error :
    rotor_command true (5, 3) (0, 0) true true = false := by
  simp only [rotor_command, if_true]
  rw [if_neg]
  rw [sub_zero, sub_zero, abs_of_nonneg (by norm_num : (0 : ℚ) ≤ 5),
    abs_of_nonneg (by norm_num : (0 : ℚ) ≤ 3)]
  norm_num [ROTOR_THRESH]

/-- Claim C7 (amended): a hardware rotor position command is issued exactly
when the rotor connection is active, one of the absolute pointing errors
exceeds the 10° threshold, and tracking is engaged or the update is
forced; it is never issued when disengaged and unforced; never at errors
`Δaz = 5, Δel = 3` (even forced); and always at `Δaz = 12` when active and
engaged-or-forced. -/
theorem C7_rotor_command_policy : ∀ (active : Bool) (pos target : ℚ × ℚ) (e force : Bool),
    (rotor_command active pos target e force = true ↔
      (active = true ∧
        (|pos.1 - target.1| > ROTOR_THRESH ∨ |pos.2 - target.2| > ROTOR_THRESH) ∧
        (e = true ∨ force = true))) ∧
    (e = false → force = false → rotor_command active pos target e force = false) ∧
    (|pos.1 - target.1| = 5 → |pos.2 - target.2| = 3 →
      rotor_command active pos target e force = false) ∧
    (active = true → (e = true ∨ force = true) → |pos.1 - target.1| = 12 →
      rotor_command active pos target e force = true) := by
  intro active pos target e force
  refine ⟨?_, ?_, ?_, ?_⟩
  · cases active
    · simp [rotor_command]
    · simp only [rotor_command, if_true]
      split_ifs with h1 h2
      · simp [h1, ← Bool.or_eq_true, h2]
      · simp [h1, ← Bool.or_eq_true, h2]
      · simp [h1]
  · intro he hf
    subst he
    subst hf
    simp [rotor_command, ite_self]
  · intro h1 h2
    have h3 : ¬(|pos.1 - target.1| > ROTOR_THRESH ∨ |pos.2 - target.2| > ROTOR_THRESH) := by
      rw [h1, h2]
      norm_num [ROTOR_THRESH]
    simp [rotor_command, h3]
  · intro ha hef h12
    subst ha
    have h3 : |pos.1 - target.1| > ROTOR_THRESH ∨ |pos.2 - target.2| > ROTOR_THRESH := by
      left
      rw [h12]
      norm_num [ROTOR_THRESH]
    rcases hef with h | h <;> simp [rotor_command, h3, h]

theorem C7_rotor_command_policy_witness :
    rotor_command true (12, 40) (0, 45) true false = true :=
  (C7_rotor_command_policy true (12, 40) (0, 45) true false).2.2.2 rfl (Or.inl rfl)
    (by rw [sub_zero]; exact abs_of_nonneg (by norm_num))

/-- Claim C6: the rotor target is the true `(az, el)` when `el ≥ 0` and the
first sky-track azimuth at zero elevation when `el < 0`; with the flip
decision set, the target `(a, e)` becomes `(a+180, 180-e)` when `a < 180`
and `(a-180, 180-e)` otherwise, and without it the target is unchanged. -/
theorem C6_new_rotor_pos_mapping : ∀ (az el t0 : ℚ) (flip : Bool),
    (flip = false → el ≥ 0 → new_rotor_pos az el t0 flip = (az, el)) ∧
    (flip = false → el < 0 → new_rotor_pos az el t0 flip = (t0, 0)) ∧
    (flip = true → el ≥ 0 → az < 180 → new_rotor_pos az el t0 flip = (az + 180, 180 - el)) ∧
    (flip = true → el ≥ 0 → ¬az < 180 → new_rotor_pos az el t0 flip = (az - 180, 180 - el)) ∧
    (flip = true → el < 0 → t0 < 180 → new_rotor_pos az el t0 flip = (t0 + 180, 180)) ∧
    (flip = true → el < 0 → ¬t0 < 180 → new_rotor_pos az el t0 flip = (t0 - 180, 180)) := by
  intro az el t0 flip
  refine ⟨?_, ?_, ?_, ?_, ?_, ?_⟩
  · intro hf he
    simp [new_rotor_pos, hf, he]
  · intro hf he
    simp [new_rotor_pos, hf, not_le.mpr he]
  · intro hf he h3
    simp [new_rotor_pos, hf, he, h3]
  · intro hf he h3
    simp [new_rotor_pos, hf, he, h3]
  · intro hf he h3
    simp [new_rotor_pos, hf, not_le.mpr he, h3]
  · intro hf he h3
    simp [new_rotor_pos, hf, not_le.mpr he, h3]

theorem C6_new_rotor_pos_mapping_witness :
    new_rotor_pos 100 (-5) 30 true = (210, 180) := by
  have h := (C6_new_rotor_pos_mapping 100 (-5) 30 true).2.2.2.2.1 rfl (by norm_num) (by norm_num)
  rw [h]
  norm_num

/-- Claim C4 counterexample: at reference downlink 145.975 MHz with a 100 MHz
Doppler figure of 1 Hz, the downlink shift is 1.45975 Hz, and the commanded
VFO value `frqA = int(fdown+fdop1+rit)` is the truncation 145975001 Hz — not
equal to the exact sum `fdown + fdop1 + rit`, against the claim's equality. -/
theorem C4_cex_truncated_sum :
    ((track_freqs ⟨145960000, 145990000, 435850000, 435880000, true⟩ 145975000 1 0 0).frqA : ℚ) ≠
      145975000 +
        (Doppler_Shifts 1 145975000
          (fup_of ⟨145960000, 145990000, 435850000, 435880000, true⟩ 145975000)).1 +
        ((0 : ℤ) : ℚ) := by
  have h1 : (Doppler_Shifts 1 145975000
      (fup_of ⟨145960000, 145990000, 435850000, 435880000, true⟩ 145975000)).1 = 5839 / 4000 := by
    show 1 / 10 ^ 8 * 1 * 145975000 = (5839 : ℚ) / 4000
    norm_num
  have h2 : (track_freqs ⟨145960000, 145990000, 435850000, 435880000, true⟩
      145975000 1 0 0).frqA = 145975001 := by
    rw [track_freqs_frqA, h1]
    unfold py_int
    rw [if_pos (by norm_num)]
    rw [Int.floor_eq_iff]
    constructor
    · push_cast
      norm_num
    · push_cast
      norm_num
  rw [h2, h1]
  push_cast
  norm_num

/-- Claim C4 (amended): on every tick the commanded downlink VFO value is
the Python `int()` truncation of `reference downlink + downlink Doppler +
RIT`, and the commanded uplink VFO value is the truncation of
`uplink + uplink Doppler + XIT`; whenever the sum is an exact integer
number of Hz (e.g. zero Doppler and integer reference) the claim's exact
equality holds. -/
theorem C4_commanded_freqs : ∀ (t : Transp) (fdown dop100 : ℚ) (rit xit : ℤ),
    ((track_freqs t fdown dop100 rit xit).frqA =
      py_int (fdown + (Doppler_Shifts dop100 fdown (fup_of t fdown)).1 + (rit : ℚ))) ∧
    ((track_freqs t fdown dop100 rit xit).frqB =
      py_int (fup_of t fdown + (Doppler_Shifts dop100 fdown (fup_of t fdown)).2 + (xit : ℚ))) ∧
    (∀ n : ℤ, fdown + (Doppler_Shifts dop100 fdown (fup_of t fdown)).1 + (rit : ℚ) = (n : ℚ) →
      ((track_freqs t fdown dop100 rit xit).frqA : ℚ) =
        fdown + (Doppler_Shifts dop100 fdown (fup_of t fdown)).1 + (rit : ℚ)) ∧
    (∀ n : ℤ, fup_of t fdown + (Doppler_Shifts dop100 fdown (fup_of t fdown)).2 + (xit : ℚ) = (n : ℚ) →
      ((track_freqs t fdown dop100 rit xit).frqB : ℚ) =
        fup_of t fdown + (Doppler_Shifts dop100 fdown (fup_of t fdown)).2 + (xit : ℚ)) := by
  intro t fdown dop100 rit xit
  refine ⟨rfl, rfl, ?_, ?_⟩
  · intro n h
    rw [track_freqs_frqA, h, py_int_intCast]
  · intro n h
    rw [track_freqs_frqB, h, py_int_intCast]

theorem C4_commanded_freqs_witness :
    ((track_freqs ⟨145960000, 145990000, 435850000, 435880000, false⟩ 145975000 0 0 0).frqA : ℚ) =
      145975000 +
        (Doppler_Shifts 0 145975000
          (fup_of ⟨145960000, 145990000, 435850000, 435880000, false⟩ 145975000)).1 +
        ((0 : ℤ) : ℚ) :=
  (C4_commanded_freqs ⟨145960000, 145990000, 435850000, 435880000, false⟩ 145975000 0 0 0).2.2.1
    145975000 (by show (145975000 : ℚ) + 1 / 10 ^ 8 * 0 * 145975000 + ((0 : ℤ) : ℚ) = _; push_cast; norm_num)

/-- Claim C5: on a post-acquisition tick, a positive VFO reading that
differs from the last commanded value rebases the reference downlink to
`observed - downlink Doppler of the last tick`; a zero or unchanged
reading leaves it untouched; and, with RIT at its default zero, unchanged
Doppler between the ticks and a consistent last command, a reading
5000 Hz above the last commanded value shifts the tick's commanded
downlink by exactly +5000 Hz relative to an unchanged reading. -/
theorem C5_manual_retune : ∀ (t : Transp) (st : TickState) (frq : ℤ) (dop100 : ℚ) (rit xit : ℤ),
    ((0 < frq ∧ frq ≠ st.frqA) →
      (updater_tick t st frq dop100 rit xit).fdown = (frq : ℚ) - st.fdop1) ∧
    ((frq = 0 ∨ frq = st.frqA) →
      (updater_tick t st frq dop100 rit xit).fdown = st.fdown) ∧
    (rit = 0 → frq = st.frqA + 5000 → 0 < frq →
      (Doppler_Shifts dop100 ((frq : ℚ) - st.fdop1)
        (fup_of t ((frq : ℚ) - st.fdop1))).1 = st.fdop1 →
      (Doppler_Shifts dop100 st.fdown (fup_of t st.fdown)).1 = st.fdop1 →
      st.frqA = py_int (st.fdown + st.fdop1) →
      (updater_tick t st frq dop100 rit xit).frqA =
        (updater_tick t st st.frqA dop100 rit xit).frqA + 5000) := by
  intro t st frq dop100 rit xit
  refine ⟨?_, ?_, ?_⟩
  · intro h
    simp only [updater_tick, if_pos h]
  · intro h
    have hn : ¬(0 < frq ∧ frq ≠ st.frqA) := by
      rcases h with rfl | rfl
      · simp
      · simp
    simp only [updater_tick, if_neg hn]
  · intro h0 hfrq hpos hD1 hD2 hlast
    have hne : frq ≠ st.frqA := by omega
    have e1 : (updater_tick t st frq dop100 rit xit).frqA = frq := by
      simp only [updater_tick, if_pos (And.intro hpos hne)]
      rw [track_freqs_frqA, hD1, h0]
      rw [show (frq : ℚ) - st.fdop1 + st.fdop1 + ((0 : ℤ) : ℚ) = (frq : ℚ) by push_cast; ring]
      exact py_int_intCast frq
    have hn2 : ¬(0 < st.frqA ∧ st.frqA ≠ st.frqA) := by simp
    have e2 : (updater_tick t st st.frqA dop100 rit xit).frqA = st.frqA := by
      simp only [updater_tick, if_neg hn2]
      rw [track_freqs_frqA, hD2, h0]
      rw [show st.fdown + st.fdop1 + ((0 : ℤ) : ℚ) = st.fdown + st.fdop1 by push_cast; ring]
      exact hlast.symm
    rw [e1, e2]
    exact hfrq

theorem C5_manual_retune_witness :
    (updater_tick ⟨145960000, 145990000, 435850000, 435880000, false⟩
        ⟨145900000, 145900000, 0⟩ 145905000 0 0 0).frqA =
      (updater_tick ⟨145960000, 145990000, 435850000, 435880000, false⟩
        ⟨145900000, 145900000, 0⟩ 145900000 0 0 0).frqA + 5000 := by
  refine (C5_manual_retune ⟨145960000, 145990000, 435850000, 435880000, false⟩
    ⟨145900000, 145900000, 0⟩ 145905000 0 0 0).2.2 rfl (by norm_num) (by norm_num) ?_ ?_ ?_
  · show (1 : ℚ) / 10 ^ 8 * 0 * ((145905000 : ℤ) - 0 : ℚ) = 0
    norm_num
  · show (1 : ℚ) / 10 ^ 8 * 0 * 145900000 = 0
    norm_num
  · show (145900000 : ℤ) = py_int ((145900000 : ℚ) + 0)
    rw [show ((145900000 : ℚ) + 0) = ((145900000 : ℤ) : ℚ) by push_cast; ring]
    exact (py_int_intCast 145900000).symm

/-! ## Main-transponder selection lemmas (claim C9) -/

theorem main_name_ne_empty (n : String) (h : main_name (py_upper n) = true) : n ≠ "" := by
  intro he
  rw [he] at h
  exact absurd h (by decide)

theorem main_step_some (s : String) (hs : s ≠ "") (n : String) :
    main_step (some s) n = some s := by
  have hb : (s == "") = false := beq_eq_false_iff_ne.mpr hs
  simp [main_step, py_falsy, hb]

theorem foldl_main_step_some (l : List String) (s : String) (hs : s ≠ "") :
    l.foldl main_step (some s) = some s := by
  induction l with
  | nil => rfl
  | cons n l ih =>
    rw [List.foldl_cons, main_step_some s hs n]
    exact ih

theorem main_step_none (n : String) :
    main_step none n = if main_criteria n then some n else none := by
  unfold main_step main_criteria py_falsy
  cases hexcl : excluded_name (py_upper n) <;> cases hmn : main_name (py_upper n) <;>
    simp [hexcl, hmn]

theorem select_main_eq_find (sections : List String) :
    select_main sections = sections.find? main_criteria := by
  unfold select_main
  induction sections with
  | nil => rfl
  | cons n l ih =>
    rw [List.foldl_cons, main_step_none]
    by_cases hc : main_criteria n = true
    · rw [if_pos hc, List.find?_cons_of_pos _ hc]
      have hmn : main_name (py_upper n) = true := by
        have := hc
        unfold main_criteria at this
        exact (Bool.and_eq_true _ _ |>.mp this).2
      exact foldl_main_step_some l n (main_name_ne_empty n hmn)
    · rw [if_neg hc, List.find?_cons_of_neg _ hc]
      exact ih

/-- Claim C9: main-transponder selection scans the file's sections in
order and designates the first whose upper-cased name passes the marker
test (contains `FM VOICE`, `TRANSPONDER` or the misspelling `TRANSPODER`,
or equals one of the canonical linear labels) and is not excluded
(contains `PE0SAT` or `L/V`); a later match never displaces the first
(the loop only warns); and when no section matches, no main transponder
is set. -/
theorem C9_select_main_first_match : ∀ sections : List String,
    (select_main sections = sections.find? main_criteria) ∧
    ((∀ n ∈ sections, main_criteria n = false) → select_main sections = none) := by
  intro sections
  refine ⟨select_main_eq_find sections, ?_⟩
  intro h
  rw [select_main_eq_find sections]
  apply List.find?_eq_none.mpr
  intro x hx
  simp [h x hx]

theorem C9_select_main_first_match_witness :
    select_main ["Mode V/U (B) PE0SAT", "Mode U/V Linear", "Mode U/V (B) Lin"] =
      some ("Mode U/V Linear") := by
  rw [(C9_select_main_first_match ["Mode V/U (B) PE0SAT", "Mode U/V Linear", "Mode U/V (B) Lin"]).1]
  decide

/-! ## Flip decision lemmas (claim C1) -/

theorem quad2_not_quad3 (a : ℚ) (h : quad2 a = true) : quad3 a = false := by
  have h2 := of_decide_eq_true h
  apply decide_eq_false
  rintro ⟨h3, -⟩
  linarith [h2.2]

theorem track_foldl_eq (az : List ℚ) : ∀ p : ℚ × ℚ,
    az.foldl track_step p =
      ((az.filter quad2).foldl min p.1, (az.filter quad3).foldl max p.2) := by
  induction az with
  | nil =>
    intro p
    rfl
  | cons a l ih =>
    intro p
    rw [List.foldl_cons]
    cases hq2 : quad2 a
    · cases hq3 : quad3 a
      · rw [show track_step p a = p from by simp [track_step, hq2, hq3]]
        rw [ih p]
        simp [List.filter_cons, hq2, hq3]
      · rw [show track_step p a = (p.1, max p.2 a) from by simp [track_step, hq2, hq3]]
        rw [ih]
        simp [List.filter_cons, hq2, hq3]
    · have hq3 := quad2_not_quad3 a hq2
      rw [show track_step p a = (min p.1 a, p.2) from by simp [track_step, hq2]]
      rw [ih]
      simp [List.filter_cons, hq2, hq3]

theorem track_minmax_eq (az : List ℚ) :
    track_minmax az = (min_quad2 az, max_quad3 az) := track_foldl_eq az (360, 0)

theorem any_quad2_iff (az : List ℚ) :
    az.any quad2 = true ↔ ∃ a ∈ az, 90 < a ∧ a < 180 := by
  simp [List.any_eq_true, quad2]

theorem any_quad3_iff (az : List ℚ) :
    az.any quad3 = true ↔ ∃ a ∈ az, 180 < a ∧ a < 270 := by
  simp [List.any_eq_true, quad3]

/-- Claim C1: the flip decision holds exactly when the sky track visits
quadrant 2 (azimuth strictly between 90° and 180°) and quadrant 3
(strictly between 180° and 270°) and the override does not fire — i.e.
it is not the case that the maximum quadrant-3 azimuth is below 195° or
the minimum quadrant-2 azimuth is above 165° (`THRESH = 15`); and the
track sweeping 100°, 170°, 190°, 260° yields a flip. -/
theorem C1_flip_decision :
    (∀ az : List ℚ, flipper az = true ↔
      ((∃ a ∈ az, 90 < a ∧ a < 180) ∧ (∃ a ∈ az, 180 < a ∧ a < 270) ∧
        ¬(max_quad3 az < 195 ∨ min_quad2 az > 165))) ∧
    flipper [100, 170, 190, 260] = true := by
  constructor
  · intro az
    rw [← any_quad2_iff, ← any_quad3_iff]
    simp only [flipper, track_minmax_eq]
    rw [show (180 : ℚ) + THRESH = 195 from by norm_num [THRESH]]
    rw [show (180 : ℚ) - THRESH = 165 from by norm_num [THRESH]]
    cases h2 : az.any quad2
    · simp [h2]
    · cases h3 : az.any quad3
      · simp [h2, h3]
      · by_cases hov : (max_quad3 az < 195 ∨ min_quad2 az > 165)
        · simp [h2, h3, hov]
        · simp [h2, h3, hov]
  · norm_num [flipper, track_minmax, track_step, quad2, quad3, THRESH, min_def, max_def]

end Satellites
